import Mathlib

/-!
Shallow embedding of the `Importer` class of the repository
`github-project-issue-to-sheets` (src/Importer.js, the compiled variant, and
the TypeScript source given as src/unnamed/part_000).  The two variants share
their control flow and differ only in the GraphQL query (the TypeScript
variant also fetches the project-board status), the 9th row column
(project-board status vs. milestone state), the story-point default
("" vs. "N/A") and the header labels.  Definitions suffixed `Ts` embed the
TypeScript variant (part_000); definitions suffixed `Js` embed the compiled
variant (Importer.js).
-/

/-- A spreadsheet cell value as produced by the row builder: a JavaScript
number, a string, or `undefined` (from optional chaining on a missing
milestone). -/
inductive Cell
  | num (n : Int)
  | str (s : String)
  | undef
  deriving DecidableEq

/-- An element of `value.labels`; the code reads `label.name`. -/
structure Label where
  name : String
  deriving DecidableEq

/-- An element of `value.assignees`; the code reads `assignee.login`. -/
structure Assignee where
  login : String
  deriving DecidableEq

/-- `value.milestone`; the code reads `title`, `state` and `due_on`. -/
structure Milestone where
  title : String
  state : String
  due_on : String
  deriving DecidableEq

/-- An issue as returned by the issue-listing endpoint.  `pull_request` is the
truthiness of the `pull_request` field (present on pull requests, absent on
plain issues). -/
structure Issue where
  number : Int
  state : String
  title : String
  html_url : String
  labels : List Label
  assignees : List Assignee
  milestone : Option Milestone
  node_id : String
  pull_request : Bool
  deriving DecidableEq

/-- `status.fieldValueByName` value in the TypeScript variant's GraphQL reply:
the inline fragment may or may not contribute `name`. -/
structure StatusValue where
  name : Option String
  deriving DecidableEq

/-- `storyPoints.fieldValueByName` value: the inline fragment may or may not
contribute `number`. -/
structure NumberValue where
  number : Option Int
  deriving DecidableEq

/-- One element of `projectItems.nodes` in the TypeScript variant's reply. -/
structure ProjectItemNode where
  status : Option StatusValue
  storyPoints : Option NumberValue
  deriving DecidableEq

/-- `projectItems` in the GraphQL reply; `nodes` may be null. -/
structure ProjectItems where
  nodes : Option (List ProjectItemNode)
  deriving DecidableEq

/-- `response.node` in the TypeScript variant's GraphQL reply. -/
structure IssueNode where
  projectItems : Option ProjectItems
  deriving DecidableEq

/-- The TypeScript variant's GraphQL response. -/
structure GraphResponse where
  node : IssueNode
  deriving DecidableEq

/-- One element of `projectItems.nodes` in the compiled variant's reply: its
query only requests `fieldValueByName(name:"Story Points")`. -/
structure ProjectItemNodeJs where
  fieldValueByName : Option NumberValue
  deriving DecidableEq

/-- `projectItems` in the compiled variant's reply. -/
structure ProjectItemsJs where
  nodes : Option (List ProjectItemNodeJs)
  deriving DecidableEq

/-- `response.node` in the compiled variant's reply. -/
structure IssueNodeJs where
  projectItems : Option ProjectItemsJs
  deriving DecidableEq

/-- The compiled variant's GraphQL response. -/
structure GraphResponseJs where
  node : IssueNodeJs
  deriving DecidableEq

/-- JavaScript `x || d` where `x` is a possibly-absent string: absent and the
empty string are falsy and give the default. -/
def jsOrString (x : Option String) (d : String) : String :=
  match x with
  | none => d
  | some s => if s = "" then d else s

/-- JavaScript `x || d` where `x` is a possibly-absent number and `d` a string
default: absent and `0` are falsy and give the default string. -/
def jsOrNumberCell (x : Option Int) (d : String) : Cell :=
  match x with
  | none => Cell.str d
  | some n => if n = 0 then Cell.str d else Cell.num n

/-- A possibly-`undefined` string as a cell (`value.milestone?.title` etc.). -/
def optStrCell : Option String → Cell
  | none => Cell.undef
  | some s => Cell.str s

/-- `response.node.projectItems?.nodes?.[0]` in the TypeScript variant. -/
def firstProjectItem (r : GraphResponse) : Option ProjectItemNode :=
  (r.node.projectItems.bind (fun q => q.nodes)).bind (fun ns => ns.head?)

/-- The chain `response.node.projectItems?.nodes?.[0]?.status?.name`. -/
def statusChainTs (r : GraphResponse) : Option String :=
  ((firstProjectItem r).bind (fun n => n.status)).bind (fun s => s.name)

/-- The chain `response.node.projectItems?.nodes?.[0]?.storyPoints?.number`. -/
def storyPointsChainTs (r : GraphResponse) : Option Int :=
  ((firstProjectItem r).bind (fun n => n.storyPoints)).bind (fun v => v.number)

/-- `const status = response.node.projectItems?.nodes?.[0]?.status?.name || ""`
(TypeScript variant, part_000 line 124). -/
def extractStatus (r : GraphResponse) : String :=
  jsOrString (statusChainTs r) ""

/-- `const storyPoints = response.node.projectItems?.nodes?.[0]?.storyPoints?.number || ""`
(TypeScript variant, part_000 line 126). -/
def extractStoryPoints (r : GraphResponse) : Cell :=
  jsOrNumberCell (storyPointsChainTs r) ""

/-- `response.node.projectItems?.nodes?.[0]` in the compiled variant. -/
def firstProjectItemJs (r : GraphResponseJs) : Option ProjectItemNodeJs :=
  (r.node.projectItems.bind (fun q => q.nodes)).bind (fun ns => ns.head?)

/-- The chain `response.node.projectItems?.nodes?.[0]?.fieldValueByName?.number`. -/
def storyPointsChainJs (r : GraphResponseJs) : Option Int :=
  ((firstProjectItemJs r).bind (fun n => n.fieldValueByName)).bind (fun v => v.number)

/-- `const storyPoints = ... || "N/A"` (compiled variant, Importer.js
lines 100-101). -/
def extractStoryPointsJs (r : GraphResponseJs) : Cell :=
  jsOrNumberCell (storyPointsChainJs r) "N/A"

/-- The 11-entry row pushed onto `issueSheetsData` by the TypeScript variant
(part_000 lines 137-153): the 9th entry is the project-board status extracted
by the GraphQL query. -/
def rowTs (v : Issue) (r : GraphResponse) : List Cell :=
  [Cell.num v.number,
   Cell.str v.state,
   Cell.str "Issue",
   Cell.str v.title,
   Cell.str v.html_url,
   Cell.str (String.intercalate ", " (v.labels.map Label.name)),
   Cell.str (String.intercalate ", " (v.assignees.map Assignee.login)),
   optStrCell (v.milestone.map Milestone.title),
   Cell.str (extractStatus r),
   extractStoryPoints r,
   optStrCell (v.milestone.map Milestone.due_on)]

/-- The 11-entry row pushed onto `issueSheetsData` by the compiled variant
(Importer.js lines 107-123): the 9th entry is `value.milestone?.state`. -/
def rowJs (v : Issue) (r : GraphResponseJs) : List Cell :=
  [Cell.num v.number,
   Cell.str v.state,
   Cell.str "Issue",
   Cell.str v.title,
   Cell.str v.html_url,
   Cell.str (String.intercalate ", " (v.labels.map Label.name)),
   Cell.str (String.intercalate ", " (v.assignees.map Assignee.login)),
   optStrCell (v.milestone.map Milestone.title),
   optStrCell (v.milestone.map Milestone.state),
   extractStoryPointsJs r,
   optStrCell (v.milestone.map Milestone.due_on)]

/-- The header row appended by the TypeScript variant (part_000
lines 169-183). -/
def headerTs : List Cell :=
  [Cell.str "#", Cell.str "Issue Status", Cell.str "Type", Cell.str "Title",
   Cell.str "URI", Cell.str "Labels", Cell.str "Assignees",
   Cell.str "Milestone", Cell.str "Task Status", Cell.str "Story Points",
   Cell.str "Deadline"]

/-- The header row appended by the compiled variant (Importer.js
lines 138-152); note the duplicate "Status" label. -/
def headerJs : List Cell :=
  [Cell.str "#", Cell.str "Status", Cell.str "Type", Cell.str "Title",
   Cell.str "URI", Cell.str "Labels", Cell.str "Assignees",
   Cell.str "Milestone", Cell.str "Status", Cell.str "Story Points",
   Cell.str "Deadline"]

/-- Error values are the message strings of the thrown `Error`s. -/
abbrev Err := String

/-- The destination sheet's contents, a list of rows. -/
abbrev Sheet := List (List Cell)

/-- The message of the error thrown when an input is missing (part_000
line 24, Importer.js line 18; emoji elided). -/
def MISSING_INPUT_MSG : Err :=
  "Some Inputs missed. Please check project README."

/-- `Importer.INPUT_SERVICE_ACCOUNT_JSON`. -/
def INPUT_SERVICE_ACCOUNT_JSON : String :=
  "google-api-service-account-credentials"

/-- `Importer.INPUT_DOCUMENT_ID`. -/
def INPUT_DOCUMENT_ID : String := "document-id"

/-- `Importer.INPUT_SHEET_NAME`. -/
def INPUT_SHEET_NAME : String := "sheet-name"

/-- The observable actions of a run, in order.  Logging calls are cosmetic and
not modelled.  `listIssues`, `graphqlQuery`, `clearValues` and `appendValues`
are network calls; `getInput`, `githubAuth`, `googleAuth` and `setFailed` are
local. -/
inductive Effect
  | getInput (key : String)
  | githubAuth
  | listIssues (owner repo stateParam : String) (page : Nat)
  | googleAuth
  | clearValues (spreadsheetId range : String)
  | graphqlQuery (nodeId : String)
  | appendValues (spreadsheetId range : String) (values : Sheet)
  | setFailed (msg : Err)
  deriving DecidableEq

/-- Whether an effect is a network call to one of the two external APIs. -/
def Effect.isNetwork : Effect → Bool
  | Effect.listIssues _ _ _ _ => true
  | Effect.graphqlQuery _ => true
  | Effect.clearValues _ _ => true
  | Effect.appendValues _ _ _ => true
  | _ => false

/-- Whether an effect is a metadata (GraphQL) query. -/
def Effect.isGraphqlQuery : Effect → Bool
  | Effect.graphqlQuery _ => true
  | _ => false

/-- The environment a run executes in: the three configuration inputs, the
repository coordinate from the ambient context, the behaviour of each external
call (which may fail), and the destination sheet's prior contents. -/
structure Env where
  serviceAccountCredentials : String
  documentId : String
  sheetName : String
  owner : String
  repo : String
  parseCredentials : Except Err Unit
  listForRepo : Nat → Except Err (List Issue)
  graphql : String → Except Err GraphResponse
  clearValues : Except Err Unit
  appendValues : Nat → Except Err Unit
  initialSheet : Sheet

/-- Result of the pagination loop. -/
inductive FetchRes
  | pages (issues : List Issue)
  | failed (e : Err)
  | outOfFuel
  deriving DecidableEq

/-- Result of the transform loop. -/
inductive TransRes
  | rows (rs : Sheet)
  | failed (e : Err)
  deriving DecidableEq

/-- Result of the `try` block of `start` (before the `catch`). -/
inductive BodyRes
  | ok
  | threw (e : Err)
  | outOfFuel
  deriving DecidableEq

/-- Final outcome of a run.  `uncaught` would be an exception escaping
`start`; the embedding proves it never occurs.  `outOfFuel` stands for the
non-terminating loop when no empty page ever arrives. -/
inductive Outcome
  | success
  | failed (e : Err)
  | outOfFuel
  | uncaught (e : Err)
  deriving DecidableEq

/-- What a run produces: its effect trace, the destination sheet's final
contents, and its outcome. -/
structure RunResult where
  trace : List Effect
  sheet : Sheet
  outcome : Outcome
  deriving DecidableEq

/-- The do-while pagination loop of `start` (part_000 lines 35-52,
Importer.js lines 27-44): request a page with state "all", concatenate its
items, increment the page counter, repeat while the page was non-empty.
`fuel` bounds the number of iterations the embedding unfolds. -/
def fetchLoop (env : Env) : Nat → Nat → List Issue → List Effect × FetchRes
  | 0, _, _ => ([], FetchRes.outOfFuel)
  | fuel + 1, page, acc =>
    match env.listForRepo page with
    | Except.error e =>
      ([Effect.listIssues env.owner env.repo "all" page], FetchRes.failed e)
    | Except.ok data =>
      if data.isEmpty then
        ([Effect.listIssues env.owner env.repo "all" page],
         FetchRes.pages (acc ++ data))
      else
        let rest := fetchLoop env fuel (page + 1) (acc ++ data)
        (Effect.listIssues env.owner env.repo "all" page :: rest.1, rest.2)

/-- The per-issue loop of `start` (part_000 lines 82-154): for every fetched
issue — the pull-request check comes after the query — run the GraphQL
metadata query, then, unless the issue is a pull request, push its row. -/
def transformLoop (env : Env) : List Issue → Sheet → List Effect × TransRes
  | [], acc => ([], TransRes.rows acc)
  | v :: rest, acc =>
    match env.graphql v.node_id with
    | Except.error e => ([Effect.graphqlQuery v.node_id], TransRes.failed e)
    | Except.ok resp =>
      let acc2 := if v.pull_request then acc else acc ++ [rowTs v resp]
      let r := transformLoop env rest acc2
      (Effect.graphqlQuery v.node_id :: r.1, r.2)

/-- The three `Core.getInput` calls that open every run. -/
def inputTrace : List Effect :=
  [Effect.getInput INPUT_SERVICE_ACCOUNT_JSON,
   Effect.getInput INPUT_DOCUMENT_ID,
   Effect.getInput INPUT_SHEET_NAME]

/-- The append call writing the header row (part_000 lines 162-185): both
append calls target the range `sheetName + "!A1:1"`. -/
def appendHeaderEff (env : Env) : Effect :=
  Effect.appendValues env.documentId (env.sheetName ++ "!A1:1") [headerTs]

/-- The append call writing the data rows (part_000 lines 187-196). -/
def appendDataEff (env : Env) (rows : Sheet) : Effect :=
  Effect.appendValues env.documentId (env.sheetName ++ "!A1:1") rows

/-- Stage of `start` after the data-append call returns (the call's effect is
already in `tr`): on failure the sheet holds only the header. -/
def afterHeaderAppend (env : Env) (tr : List Effect) (issueSheetsData : Sheet) :
    List Effect × Sheet × BodyRes :=
  match env.appendValues 1 with
  | Except.error e => (tr, [headerTs], BodyRes.threw e)
  | Except.ok _ => (tr, headerTs :: issueSheetsData, BodyRes.ok)

/-- Stage of `start` after the transform loop: append the header row, then the
data rows (part_000 lines 160-196). -/
def afterTransform (env : Env) (tr : List Effect) (issueSheetsData : Sheet) :
    List Effect × Sheet × BodyRes :=
  match env.appendValues 0 with
  | Except.error e => (tr ++ [appendHeaderEff env], [], BodyRes.threw e)
  | Except.ok _ =>
    afterHeaderAppend env
      (tr ++ [appendHeaderEff env, appendDataEff env issueSheetsData])
      issueSheetsData

/-- Stage of `start` after the clear call returns: run the per-issue transform
loop (part_000 lines 80-158).  The destination was cleared, so a failure here
leaves the sheet empty. -/
def afterClear (env : Env) (tr : List Effect) :
    List Effect × TransRes → List Effect × Sheet × BodyRes
  | (ttr, TransRes.failed e) => (tr ++ ttr, [], BodyRes.threw e)
  | (ttr, TransRes.rows issueSheetsData) =>
    afterTransform env (tr ++ ttr) issueSheetsData

/-- Stage of `start` after the Google authentication: clear the destination
range (part_000 lines 72-78), whose effect is already in `tr`. -/
def afterGoogleAuth (env : Env) (tr : List Effect) (issuesData : List Issue) :
    List Effect × Sheet × BodyRes :=
  match env.clearValues with
  | Except.error e => (tr, env.initialSheet, BodyRes.threw e)
  | Except.ok _ => afterClear env tr (transformLoop env issuesData [])

/-- Stage of `start` after the pagination loop: parse the service-account
credentials (`JSON.parse`, part_000 line 63, which may throw), build the
Sheets client, then clear. -/
def afterFetch (env : Env) (tr : List Effect) (issuesData : List Issue) :
    List Effect × Sheet × BodyRes :=
  match env.parseCredentials with
  | Except.error e => (tr, env.initialSheet, BodyRes.threw e)
  | Except.ok _ =>
    afterGoogleAuth env
      (tr ++ [Effect.googleAuth, Effect.clearValues env.documentId env.sheetName])
      issuesData

/-- Stage of `start` dispatching on the pagination loop's result. -/
def afterAuth (env : Env) : List Effect × FetchRes → List Effect × Sheet × BodyRes
  | (ftr, FetchRes.outOfFuel) =>
    (inputTrace ++ [Effect.githubAuth] ++ ftr, env.initialSheet, BodyRes.outOfFuel)
  | (ftr, FetchRes.failed e) =>
    (inputTrace ++ [Effect.githubAuth] ++ ftr, env.initialSheet, BodyRes.threw e)
  | (ftr, FetchRes.pages issuesData) =>
    afterFetch env (inputTrace ++ [Effect.githubAuth] ++ ftr) issuesData

/-- The `try` block of `start` (part_000 lines 16-199), as a function from the
environment to the effect trace, the destination sheet and whether the block
completed or threw: read the three inputs, check them, authenticate with
GitHub, run the pagination loop, parse the credentials and build the Sheets
client, clear the destination range, run the transform loop, append the
header row, append the data rows. -/
def startBody (env : Env) (fuel : Nat) : List Effect × Sheet × BodyRes :=
  if env.serviceAccountCredentials = "" ∨ env.documentId = "" ∨ env.sheetName = "" then
    (inputTrace, env.initialSheet, BodyRes.threw MISSING_INPUT_MSG)
  else
    afterAuth env (fetchLoop env fuel 1 [])

/-- `Importer.start`: the `try` block wrapped in the single top-level `catch`
(part_000 lines 200-202), which converts any thrown error into a
`Core.setFailed` report.  The returned promise resolves in every case. -/
def Importer.start (env : Env) (fuel : Nat) : RunResult :=
  match startBody env fuel with
  | (tr, sh, BodyRes.ok) => ⟨tr, sh, Outcome.success⟩
  | (tr, sh, BodyRes.threw e) => ⟨tr ++ [Effect.setFailed e], sh, Outcome.failed e⟩
  | (tr, sh, BodyRes.outOfFuel) => ⟨tr, sh, Outcome.outOfFuel⟩

/-- Page `p` (1-indexed) of a mocked issue source that serves the pages of
`pages` and then empty pages forever. -/
def pageAt (pages : List (List Issue)) (p : Nat) : List Issue :=
  pages.getD (p - 1) []

/-- An environment whose external calls all succeed: the issue source serves
`pages` then empty pages, the GraphQL endpoint answers with `g`, and the
Sheets calls succeed. -/
def mkEnv (cred doc name owner repo : String) (pages : List (List Issue))
    (g : String → GraphResponse) (init : Sheet) : Env :=
  { serviceAccountCredentials := cred
    documentId := doc
    sheetName := name
    owner := owner
    repo := repo
    parseCredentials := Except.ok ()
    listForRepo := fun p => Except.ok (pageAt pages p)
    graphql := fun i => Except.ok (g i)
    clearValues := Except.ok ()
    appendValues := fun _ => Except.ok ()
    initialSheet := init }

/-- The list calls a run makes: pages `start, start+1, ...` (`n` of them),
each with state "all". -/
def fetchCalls (owner repo : String) : Nat → Nat → List Effect
  | _, 0 => []
  | start, k + 1 =>
    Effect.listIssues owner repo "all" start :: fetchCalls owner repo (start + 1) k

/-- The pagination loop on a source that serves the non-empty pages of
`pages` from page `start` on and an empty page after them: it makes one list
call per page of `pages` plus one that observes the empty page, and returns
the concatenation of all pages in order. -/
theorem fetchLoop_spec (pages : List (List Issue)) :
    ∀ (env : Env) (start : Nat) (acc : List Issue) (fuel : Nat),
      (∀ i, env.listForRepo (start + i) = Except.ok (pages.getD i [])) →
      (∀ pg ∈ pages, pg ≠ []) →
      pages.length + 1 ≤ fuel →
      fetchLoop env fuel start acc
        = (fetchCalls env.owner env.repo start (pages.length + 1),
           FetchRes.pages (acc ++ pages.flatten)) := by
  induction pages with
  | nil =>
    intro env start acc fuel hsrc _ hfuel
    cases fuel with
    | zero => omega
    | succ f =>
      have h0 := hsrc 0
      simp only [Nat.add_zero, List.getD] at h0
      simp [fetchLoop, h0, fetchCalls]
  | cons p rest ih =>
    intro env start acc fuel hsrc hne hfuel
    cases fuel with
    | zero => simp at hfuel
    | succ f =>
      have h0 := hsrc 0
      simp only [Nat.add_zero, List.getD_cons_zero] at h0
      have hp : p ≠ [] := hne p (List.mem_cons_self p rest)
      obtain ⟨a, as, rfl⟩ := List.exists_cons_of_ne_nil hp
      have hsrc1 : ∀ i, env.listForRepo (start + 1 + i) = Except.ok (rest.getD i []) := by
        intro i
        have := hsrc (i + 1)
        simpa [Nat.add_comm, Nat.add_assoc, Nat.add_left_comm] using this
      have hne1 : ∀ pg ∈ rest, pg ≠ [] := fun pg hm => hne pg (List.mem_cons_of_mem _ hm)
      have hfuel1 : rest.length + 1 ≤ f := by
        simp only [List.length_cons] at hfuel; omega
      have hrec := ih env (start + 1) (acc ++ (a :: as)) f hsrc1 hne1 hfuel1
      simp [fetchLoop, h0, hrec, fetchCalls, List.append_assoc]

/-- The transform loop on an environment whose GraphQL endpoint always
answers (with `g`): it queries once per issue, in order, pull requests
included, and accumulates one row per non-pull-request issue, in order. -/
theorem transformLoop_spec (g : String → GraphResponse) (env : Env)
    (hg : ∀ i, env.graphql i = Except.ok (g i)) :
    ∀ (issues : List Issue) (acc : Sheet),
      transformLoop env issues acc
        = (issues.map (fun v => Effect.graphqlQuery v.node_id),
           TransRes.rows (acc ++ (issues.filter (fun v => !v.pull_request)).map
             (fun v => rowTs v (g v.node_id)))) := by
  intro issues
  induction issues with
  | nil => intro acc; simp [transformLoop]
  | cons v rest ih =>
    intro acc
    by_cases hv : v.pull_request
    · simp [transformLoop, hg v.node_id, hv, ih, List.filter_cons]
    · simp only [Bool.not_eq_true] at hv
      simp [transformLoop, hg v.node_id, hv, ih, List.filter_cons,
        List.append_assoc]

/-- A successful run on an all-succeeding environment with non-empty inputs:
the full effect trace in order (inputs, GitHub auth, one list call per page
plus the terminating one, Google auth, clear, one GraphQL query per fetched
issue, header append, data append) and the final sheet contents (the header
row followed by one row per non-pull-request issue, in fetch order). -/
theorem start_spec (cred doc name owner repo : String) (pages : List (List Issue))
    (g : String → GraphResponse) (init : Sheet) (fuel : Nat)
    (hc : cred ≠ "") (hd : doc ≠ "") (hn : name ≠ "")
    (hp : ∀ pg ∈ pages, pg ≠ []) (hf : pages.length + 1 ≤ fuel) :
    Importer.start (mkEnv cred doc name owner repo pages g init) fuel =
      ⟨inputTrace ++ [Effect.githubAuth]
        ++ fetchCalls owner repo 1 (pages.length + 1)
        ++ [Effect.googleAuth, Effect.clearValues doc name]
        ++ pages.flatten.map (fun v => Effect.graphqlQuery v.node_id)
        ++ [Effect.appendValues doc (name ++ "!A1:1") [headerTs],
            Effect.appendValues doc (name ++ "!A1:1")
              ((pages.flatten.filter (fun v => !v.pull_request)).map
                (fun v => rowTs v (g v.node_id)))],
       headerTs :: (pages.flatten.filter (fun v => !v.pull_request)).map
         (fun v => rowTs v (g v.node_id)),
       Outcome.success⟩ := by
  have hsrc : ∀ i, (mkEnv cred doc name owner repo pages g init).listForRepo (1 + i)
      = Except.ok (pages.getD i []) := by
    intro i
    simp [mkEnv, pageAt]
  have hfetch := fetchLoop_spec pages (mkEnv cred doc name owner repo pages g init)
    1 [] fuel hsrc hp hf
  have htrans := transformLoop_spec g (mkEnv cred doc name owner repo pages g init)
    (fun _ => rfl) pages.flatten []
  have hcond : ¬((mkEnv cred doc name owner repo pages g init).serviceAccountCredentials = ""
      ∨ (mkEnv cred doc name owner repo pages g init).documentId = ""
      ∨ (mkEnv cred doc name owner repo pages g init).sheetName = "") := by
    simp only [not_or]
    exact ⟨hc, hd, hn⟩
  have hpc : (mkEnv cred doc name owner repo pages g init).parseCredentials
      = Except.ok () := rfl
  have hcv : (mkEnv cred doc name owner repo pages g init).clearValues
      = Except.ok () := rfl
  have hav0 : (mkEnv cred doc name owner repo pages g init).appendValues 0
      = Except.ok () := rfl
  have hav1 : (mkEnv cred doc name owner repo pages g init).appendValues 1
      = Except.ok () := rfl
  have hdoc : (mkEnv cred doc name owner repo pages g init).documentId = doc := rfl
  have hnm : (mkEnv cred doc name owner repo pages g init).sheetName = name := rfl
  have how : (mkEnv cred doc name owner repo pages g init).owner = owner := rfl
  have hrp : (mkEnv cred doc name owner repo pages g init).repo = repo := rfl
  rw [how, hrp] at hfetch
  simp only [List.nil_append] at hfetch htrans
  unfold Importer.start startBody
  rw [if_neg hcond, hfetch]
  simp only [afterAuth, afterFetch, afterGoogleAuth, afterClear, afterTransform,
    afterHeaderAppend, appendHeaderEff, appendDataEff, hpc, hcv, htrans, hav0, hav1,
    hdoc, hnm]

/-- The list calls of a run, written with an explicit page index: pages
`start, start+1, ..., start+n-1`, each with state "all". -/
theorem fetchCalls_eq_range (owner repo : String) :
    ∀ (n start : Nat), fetchCalls owner repo start n
      = (List.range n).map (fun i => Effect.listIssues owner repo "all" (start + i)) := by
  intro n
  induction n with
  | zero => intro start; simp [fetchCalls]
  | succ k ih =>
    intro start
    have hfun : (fun i => Effect.listIssues owner repo "all" (start + 1 + i))
        = fun i => Effect.listIssues owner repo "all" (start + Nat.succ i) := by
      funext i
      congr 1
      omega
    simp [fetchCalls, ih (start + 1), List.range_succ_eq_map, List.map_map,
      Function.comp_def, hfun]

/-- A filter and its complement split a list's length. -/
theorem length_filter_add (p : Issue → Bool) :
    ∀ l : List Issue,
      (l.filter p).length + (l.filter (fun v => !p v)).length = l.length := by
  intro l
  induction l with
  | nil => simp
  | cons a l ih =>
    cases ha : p a
    · simp [List.filter_cons, ha]
      omega
    · simp [List.filter_cons, ha]
      omega

/-- Dropping the elements satisfying `p` keeps `length - (count of p)`
elements. -/
theorem length_filter_not_eq (p : Issue → Bool) :
    ∀ l : List Issue, (l.filter (fun v => !p v)).length
      = l.length - (l.filter p).length := by
  intro l
  have h := length_filter_add p l
  omega

/-- List calls are not metadata queries. -/
theorem fetchCalls_no_graphql (owner repo : String) :
    ∀ (n start : Nat),
      (fetchCalls owner repo start n).filter Effect.isGraphqlQuery = [] := by
  intro n
  induction n with
  | zero => intro start; simp [fetchCalls]
  | succ k ih =>
    intro start
    simp [fetchCalls, List.filter_cons, Effect.isGraphqlQuery, ih]

/-- A list of metadata queries is untouched by the metadata-query filter. -/
theorem graphql_map_filter (issues : List Issue) :
    (issues.map (fun v => Effect.graphqlQuery v.node_id)).filter Effect.isGraphqlQuery
      = issues.map (fun v => Effect.graphqlQuery v.node_id) := by
  induction issues with
  | nil => simp
  | cons v rest ih => simp [List.filter_cons, Effect.isGraphqlQuery, ih]

/-- Page-wise version of `graphql_map_filter`. -/
theorem graphql_map_filter_comp (pages : List (List Issue)) :
    List.map (List.filter Effect.isGraphqlQuery
        ∘ List.map fun v => Effect.graphqlQuery v.node_id) pages
      = List.map (List.map fun v => Effect.graphqlQuery v.node_id) pages := by
  induction pages with
  | nil => rfl
  | cons p rest ih =>
    simp only [List.map_cons, Function.comp_apply, ih, graphql_map_filter p]

/-- A GraphQL endpoint whose every reply has no linked project item. -/
def gEmpty : String → GraphResponse := fun _ => ⟨⟨none⟩⟩

/-- A plain issue (not a pull request), used as concrete input. -/
def issA : Issue :=
  { number := 1, state := "open", title := "A", html_url := "u1", labels := [],
    assignees := [], milestone := none, node_id := "n1", pull_request := false }

/-- A pull request as it appears in the issue listing, used as concrete
input. -/
def issB : Issue :=
  { number := 2, state := "closed", title := "B", html_url := "u2", labels := [],
    assignees := [], milestone := none, node_id := "n2", pull_request := true }

/-- The TypeScript variant's reply for a board whose first project item has
status "Done" and 5 story points. -/
def respDoneTs : GraphResponse :=
  ⟨⟨some ⟨some [⟨some ⟨some "Done"⟩, some ⟨some 5⟩⟩]⟩⟩⟩

/-- The compiled variant's reply for the same board state: its query fetches
only the story points. -/
def respDoneJs : GraphResponseJs :=
  ⟨⟨some ⟨some [⟨some ⟨some 5⟩⟩]⟩⟩⟩

/-- The TypeScript variant's reply for a board whose first project item has 0
story points and no status. -/
def respZeroTs : GraphResponse :=
  ⟨⟨some ⟨some [⟨none, some ⟨some 0⟩⟩]⟩⟩⟩

/-- The compiled variant's reply for a board whose first project item has 0
story points. -/
def respZeroJs : GraphResponseJs :=
  ⟨⟨some ⟨some [⟨some ⟨some 0⟩⟩]⟩⟩⟩

/-- C6: the fetch loop requests pages starting at page 1 with state "all" and
concatenates each page's items in order without re-sorting; on a source
serving N non-empty pages followed by an empty page it terminates exactly one
page after the first empty page: N+1 list calls (pages 1 through N+1), of
which the first N contribute data. -/
theorem c6_pagination (cred doc name owner repo : String) (pages : List (List Issue))
    (g : String → GraphResponse) (init : Sheet) (fuel : Nat)
    (hp : ∀ pg ∈ pages, pg ≠ []) (hf : pages.length + 1 ≤ fuel) :
    fetchLoop (mkEnv cred doc name owner repo pages g init) fuel 1 []
      = (fetchCalls owner repo 1 (pages.length + 1), FetchRes.pages pages.flatten)
    ∧ fetchCalls owner repo 1 (pages.length + 1)
      = (List.range (pages.length + 1)).map
          (fun i => Effect.listIssues owner repo "all" (1 + i)) := by
  constructor
  · have hsrc : ∀ i, (mkEnv cred doc name owner repo pages g init).listForRepo (1 + i)
        = Except.ok (pages.getD i []) := by
      intro i
      simp [mkEnv, pageAt]
    have h := fetchLoop_spec pages (mkEnv cred doc name owner repo pages g init)
      1 [] fuel hsrc hp hf
    have how : (mkEnv cred doc name owner repo pages g init).owner = owner := rfl
    have hrp : (mkEnv cred doc name owner repo pages g init).repo = repo := rfl
    rw [how, hrp] at h
    simpa using h
  · exact fetchCalls_eq_range owner repo (pages.length + 1) 1

/-- C6 witness: two non-empty pages then an empty one give three list calls
and the two pages' items in order. -/
theorem c6_pagination_witness :
    fetchLoop (mkEnv "c" "d" "s" "o" "r" [[issA], [issB]] gEmpty []) 3 1 []
      = (fetchCalls "o" "r" 1 ([[issA], [issB]].length + 1),
         FetchRes.pages [[issA], [issB]].flatten)
    ∧ fetchCalls "o" "r" 1 ([[issA], [issB]].length + 1)
      = (List.range ([[issA], [issB]].length + 1)).map
          (fun i => Effect.listIssues "o" "r" "all" (1 + i)) :=
  c6_pagination "c" "d" "s" "o" "r" [[issA], [issB]] gEmpty [] 3
    (by decide) (by decide)

/-- C7: when any of the three required configuration values is empty, the run
fails with the missing-input error immediately: the trace holds only the
three input reads and the failure report, none of which is a network call,
and the destination sheet is untouched. -/
theorem c7_missing_input (env : Env) (fuel : Nat)
    (h : env.serviceAccountCredentials = "" ∨ env.documentId = "" ∨ env.sheetName = "") :
    Importer.start env fuel
      = ⟨inputTrace ++ [Effect.setFailed MISSING_INPUT_MSG], env.initialSheet,
         Outcome.failed MISSING_INPUT_MSG⟩
    ∧ ((inputTrace ++ [Effect.setFailed MISSING_INPUT_MSG]).all
        (fun e => !e.isNetwork)) = true := by
  constructor
  · unfold Importer.start startBody
    rw [if_pos h]
  · decide

/-- C7 witness: with empty credential material the run fails before any
network call. -/
theorem c7_missing_input_witness :
    Importer.start (mkEnv "" "d" "s" "o" "r" [] gEmpty []) 1
      = ⟨inputTrace ++ [Effect.setFailed MISSING_INPUT_MSG],
         (mkEnv "" "d" "s" "o" "r" [] gEmpty []).initialSheet,
         Outcome.failed MISSING_INPUT_MSG⟩
    ∧ ((inputTrace ++ [Effect.setFailed MISSING_INPUT_MSG]).all
        (fun e => !e.isNetwork)) = true :=
  c7_missing_input (mkEnv "" "d" "s" "o" "r" [] gEmpty []) 1 (Or.inl rfl)

/-- C8: a reply with no linked project item (absent `projectItems`, absent or
empty `nodes`) never throws during extraction — the optional chains are total
— and yields the empty status and the default story-point cell, so the row's
status and story-point entries carry the defaults ("" in the TypeScript
variant, "N/A" as the compiled variant's story-point default). -/
theorem c8_no_project_item (r : GraphResponse) (rj : GraphResponseJs) (v : Issue)
    (h : (r.node.projectItems.bind (fun q => q.nodes)).getD [] = [])
    (hj : (rj.node.projectItems.bind (fun q => q.nodes)).getD [] = []) :
    extractStatus r = "" ∧ extractStoryPoints r = Cell.str ""
    ∧ (rowTs v r)[8]? = some (Cell.str "") ∧ (rowTs v r)[9]? = some (Cell.str "")
    ∧ extractStoryPointsJs rj = Cell.str "N/A" := by
  have hfp : firstProjectItem r = none := by
    unfold firstProjectItem
    rcases hopt : r.node.projectItems.bind (fun q => q.nodes) with _ | l
    · rfl
    · rw [hopt] at h
      simp only [Option.getD_some] at h
      subst h
      rfl
  have hfpj : firstProjectItemJs rj = none := by
    unfold firstProjectItemJs
    rcases hopt : rj.node.projectItems.bind (fun q => q.nodes) with _ | l
    · rfl
    · rw [hopt] at hj
      simp only [Option.getD_some] at hj
      subst hj
      rfl
  have h1 : extractStatus r = "" := by
    simp [extractStatus, statusChainTs, hfp, jsOrString]
  have h2 : extractStoryPoints r = Cell.str "" := by
    simp [extractStoryPoints, storyPointsChainTs, hfp, jsOrNumberCell]
  have h3 : extractStoryPointsJs rj = Cell.str "N/A" := by
    simp [extractStoryPointsJs, storyPointsChainJs, hfpj, jsOrNumberCell]
  refine ⟨h1, h2, ?_, ?_, h3⟩
  · simp [rowTs, h1]
  · simp [rowTs, h2]

/-- C8 witness: a reply with `projectItems` absent, on a concrete issue. -/
theorem c8_no_project_item_witness :
    extractStatus ⟨⟨none⟩⟩ = "" ∧ extractStoryPoints ⟨⟨none⟩⟩ = Cell.str ""
    ∧ (rowTs issA ⟨⟨none⟩⟩)[8]? = some (Cell.str "")
    ∧ (rowTs issA ⟨⟨none⟩⟩)[9]? = some (Cell.str "")
    ∧ extractStoryPointsJs ⟨⟨none⟩⟩ = Cell.str "N/A" :=
  c8_no_project_item ⟨⟨none⟩⟩ ⟨⟨none⟩⟩ issA rfl rfl

/-- C9: `start` never rejects: its outcome is never an uncaught exception,
and whenever the `try` block throws anywhere (input check, fetch, enrichment,
parse, clear, append) the single top-level handler converts the error into a
`setFailed` report appended to the trace and the run ends as `failed`. -/
theorem c9_never_rejects (env : Env) (fuel : Nat) :
    (∀ e, (Importer.start env fuel).outcome ≠ Outcome.uncaught e)
    ∧ (∀ tr sh e, startBody env fuel = (tr, sh, BodyRes.threw e) →
        Importer.start env fuel
          = ⟨tr ++ [Effect.setFailed e], sh, Outcome.failed e⟩) := by
  constructor
  · intro e
    rcases hb : startBody env fuel with ⟨tr, sh, res⟩
    unfold Importer.start
    rw [hb]
    cases res <;> simp
  · intro tr sh e hb
    unfold Importer.start
    rw [hb]

/-- C10: a story-point value of exactly 0 on the first linked project item is
indistinguishable in the output from an absent value: `||` treats 0 as falsy,
so both variants produce their default cell ("" in the TypeScript variant,
"N/A" in the compiled variant) instead of the number 0. -/
theorem c10_zero_story_points (r r0 : GraphResponse) (rj rj0 : GraphResponseJs)
    (h : storyPointsChainTs r = some 0) (h0 : storyPointsChainTs r0 = none)
    (hj : storyPointsChainJs rj = some 0) (hj0 : storyPointsChainJs rj0 = none) :
    extractStoryPoints r = Cell.str ""
    ∧ extractStoryPoints r = extractStoryPoints r0
    ∧ extractStoryPointsJs rj = Cell.str "N/A"
    ∧ extractStoryPointsJs rj = extractStoryPointsJs rj0 := by
  simp [extractStoryPoints, extractStoryPointsJs, jsOrNumberCell, h, h0, hj, hj0]

/-- C10 witness: a first project item with 0 story points gives the same cell
as one with no project item at all. -/
theorem c10_zero_story_points_witness :
    extractStoryPoints respZeroTs = Cell.str ""
    ∧ extractStoryPoints respZeroTs = extractStoryPoints ⟨⟨none⟩⟩
    ∧ extractStoryPointsJs respZeroJs = Cell.str "N/A"
    ∧ extractStoryPointsJs respZeroJs = extractStoryPointsJs ⟨⟨none⟩⟩ :=
  c10_zero_story_points respZeroTs ⟨⟨none⟩⟩ respZeroJs ⟨⟨none⟩⟩ rfl rfl rfl rfl

/-- C1: on a successful run the transformed rows are exactly one per fetched
non-pull-request issue, in fetch order, and the destination sheet holds the
header row followed by those rows, so its row count is (fetched issue count
minus pull-request count) plus one. -/
theorem c1_row_count (cred doc name owner repo : String) (pages : List (List Issue))
    (g : String → GraphResponse) (init : Sheet) (fuel : Nat)
    (hc : cred ≠ "") (hd : doc ≠ "") (hn : name ≠ "")
    (hp : ∀ pg ∈ pages, pg ≠ []) (hf : pages.length + 1 ≤ fuel) :
    (Importer.start (mkEnv cred doc name owner repo pages g init) fuel).sheet
      = headerTs :: (pages.flatten.filter (fun v => !v.pull_request)).map
          (fun v => rowTs v (g v.node_id))
    ∧ (Importer.start (mkEnv cred doc name owner repo pages g init) fuel).sheet.length
      = (pages.flatten.length
          - (pages.flatten.filter (fun v => v.pull_request)).length) + 1 := by
  have h := start_spec cred doc name owner repo pages g init fuel hc hd hn hp hf
  constructor
  · rw [h]
  · rw [h]
    simp only [List.length_cons, List.length_map]
    rw [length_filter_not_eq (fun v => v.pull_request) pages.flatten]

/-- C1 witness: one page holding a plain issue and a pull request gives the
header plus exactly one data row. -/
theorem c1_row_count_witness :
    (Importer.start (mkEnv "c" "d" "s" "o" "r" [[issA, issB]] gEmpty []) 2).sheet
      = headerTs :: ([[issA, issB]].flatten.filter (fun v => !v.pull_request)).map
          (fun v => rowTs v (gEmpty v.node_id))
    ∧ (Importer.start (mkEnv "c" "d" "s" "o" "r" [[issA, issB]] gEmpty []) 2).sheet.length
      = ([[issA, issB]].flatten.length
          - ([[issA, issB]].flatten.filter (fun v => v.pull_request)).length) + 1 :=
  c1_row_count "c" "d" "s" "o" "r" [[issA, issB]] gEmpty [] 2
    (by decide) (by decide) (by decide) (by decide) (by decide)

/-- C2 counterexample: in a run whose only fetched issue is a pull request,
the metadata query is nevertheless issued for it — the pull-request check
(part_000 line 130) comes only after the query (line 93). -/
theorem c2_counterexample :
    Effect.graphqlQuery "n2"
      ∈ (Importer.start (mkEnv "c" "d" "s" "o" "r" [[issB]] gEmpty []) 2).trace := by
  decide

/-- C2 amended: the metadata query is issued exactly once per fetched issue
including pull requests, keyed by the issue's opaque node identifier, in
fetch order. -/
theorem c2_one_query_per_issue (cred doc name owner repo : String)
    (pages : List (List Issue)) (g : String → GraphResponse) (init : Sheet)
    (fuel : Nat) (hc : cred ≠ "") (hd : doc ≠ "") (hn : name ≠ "")
    (hp : ∀ pg ∈ pages, pg ≠ []) (hf : pages.length + 1 ≤ fuel) :
    (Importer.start (mkEnv cred doc name owner repo pages g init) fuel).trace.filter
        Effect.isGraphqlQuery
      = pages.flatten.map (fun v => Effect.graphqlQuery v.node_id) := by
  rw [start_spec cred doc name owner repo pages g init fuel hc hd hn hp hf]
  simp [List.filter_append, fetchCalls_no_graphql, graphql_map_filter,
    inputTrace, List.filter_cons, Effect.isGraphqlQuery]
  rw [graphql_map_filter_comp]

/-- C2 amended witness: a plain issue and a pull request each get exactly one
query, in fetch order. -/
theorem c2_one_query_per_issue_witness :
    (Importer.start (mkEnv "c" "d" "s" "o" "r" [[issA, issB]] gEmpty []) 2).trace.filter
        Effect.isGraphqlQuery
      = [[issA, issB]].flatten.map (fun v => Effect.graphqlQuery v.node_id) :=
  c2_one_query_per_issue "c" "d" "s" "o" "r" [[issA, issB]] gEmpty [] 2
    (by decide) (by decide) (by decide) (by decide) (by decide)

/-- C3 counterexample: in a concrete run with one plain issue the clear of
the destination range occurs strictly before the transform loop's metadata
query, so the Row Transformer has not completed (indeed not started) when the
destination is cleared. -/
theorem c3_counterexample :
    Effect.clearValues "d" "s"
        ∈ (Importer.start (mkEnv "c" "d" "s" "o" "r" [[issA]] gEmpty []) 2).trace
    ∧ Effect.graphqlQuery "n1"
        ∈ (Importer.start (mkEnv "c" "d" "s" "o" "r" [[issA]] gEmpty []) 2).trace
    ∧ (Importer.start (mkEnv "c" "d" "s" "o" "r" [[issA]] gEmpty []) 2).trace.indexOf
          (Effect.clearValues "d" "s")
      < (Importer.start (mkEnv "c" "d" "s" "o" "r" [[issA]] gEmpty []) 2).trace.indexOf
          (Effect.graphqlQuery "n1") := by
  decide

/-- C3 amended: execution is strictly sequential, but the destination clear
precedes the row transformation: input reads, GitHub auth, all fetch pages,
Google auth, clear, the per-issue metadata queries (transform), header
append, data append, in exactly that order. -/
theorem c3_sequential_order (cred doc name owner repo : String)
    (pages : List (List Issue)) (g : String → GraphResponse) (init : Sheet)
    (fuel : Nat) (hc : cred ≠ "") (hd : doc ≠ "") (hn : name ≠ "")
    (hp : ∀ pg ∈ pages, pg ≠ []) (hf : pages.length + 1 ≤ fuel) :
    Importer.start (mkEnv cred doc name owner repo pages g init) fuel =
      ⟨inputTrace ++ [Effect.githubAuth]
        ++ fetchCalls owner repo 1 (pages.length + 1)
        ++ [Effect.googleAuth, Effect.clearValues doc name]
        ++ pages.flatten.map (fun v => Effect.graphqlQuery v.node_id)
        ++ [Effect.appendValues doc (name ++ "!A1:1") [headerTs],
            Effect.appendValues doc (name ++ "!A1:1")
              ((pages.flatten.filter (fun v => !v.pull_request)).map
                (fun v => rowTs v (g v.node_id)))],
       headerTs :: (pages.flatten.filter (fun v => !v.pull_request)).map
         (fun v => rowTs v (g v.node_id)),
       Outcome.success⟩ :=
  start_spec cred doc name owner repo pages g init fuel hc hd hn hp hf

/-- C3 amended witness: the order on a concrete one-issue run. -/
theorem c3_sequential_order_witness :
    Importer.start (mkEnv "c" "d" "s" "o" "r" [[issA]] gEmpty []) 2 =
      ⟨inputTrace ++ [Effect.githubAuth]
        ++ fetchCalls "o" "r" 1 ([[issA]].length + 1)
        ++ [Effect.googleAuth, Effect.clearValues "d" "s"]
        ++ [[issA]].flatten.map (fun v => Effect.graphqlQuery v.node_id)
        ++ [Effect.appendValues "d" ("s" ++ "!A1:1") [headerTs],
            Effect.appendValues "d" ("s" ++ "!A1:1")
              (([[issA]].flatten.filter (fun v => !v.pull_request)).map
                (fun v => rowTs v (gEmpty v.node_id)))],
       headerTs :: ([[issA]].flatten.filter (fun v => !v.pull_request)).map
         (fun v => rowTs v (gEmpty v.node_id)),
       Outcome.success⟩ :=
  c3_sequential_order "c" "d" "s" "o" "r" [[issA]] gEmpty [] 2
    (by decide) (by decide) (by decide) (by decide) (by decide)

/-- C4 counterexample: for the same board state — first linked project item
with status "Done" and 5 story points — the compiled variant's row is not the
claimed tuple: its 9th entry is `value.milestone?.state` (`undefined` here,
the issue has no milestone), not the project-board status "Done", which its
enrichment query does not even fetch; the TypeScript variant's row does carry
"Done" there. -/
theorem c4_counterexample :
    (rowTs issA respDoneTs)[8]? = some (Cell.str "Done")
    ∧ (rowJs issA respDoneJs)[8]? = some Cell.undef
    ∧ rowJs issA respDoneJs ≠ rowTs issA respDoneTs := by
  decide

/-- C4 amended: in the TypeScript variant every data row of a successful run
is the claimed ordered 11-tuple, with the 9th entry the project-board status
extracted by the enrichment query and the 10th the story points (default ""
when absent); in the compiled variant the 9th entry is instead the milestone
state (absent when no milestone) and the story-point default is "N/A". -/
theorem c4_row_layout (cred doc name owner repo : String) (pages : List (List Issue))
    (g : String → GraphResponse) (init : Sheet) (fuel : Nat)
    (hc : cred ≠ "") (hd : doc ≠ "") (hn : name ≠ "")
    (hp : ∀ pg ∈ pages, pg ≠ []) (hf : pages.length + 1 ≤ fuel) :
    (Importer.start (mkEnv cred doc name owner repo pages g init) fuel).sheet.tail
      = (pages.flatten.filter (fun v => !v.pull_request)).map (fun v =>
          [Cell.num v.number,
           Cell.str v.state,
           Cell.str "Issue",
           Cell.str v.title,
           Cell.str v.html_url,
           Cell.str (String.intercalate ", " (v.labels.map Label.name)),
           Cell.str (String.intercalate ", " (v.assignees.map Assignee.login)),
           optStrCell (v.milestone.map Milestone.title),
           Cell.str (extractStatus (g v.node_id)),
           extractStoryPoints (g v.node_id),
           optStrCell (v.milestone.map Milestone.due_on)])
    ∧ ∀ (v : Issue) (rj : GraphResponseJs),
        (rowJs v rj)[8]? = some (optStrCell (v.milestone.map Milestone.state))
        ∧ (storyPointsChainJs rj = none →
            (rowJs v rj)[9]? = some (Cell.str "N/A")) := by
  constructor
  · rw [start_spec cred doc name owner repo pages g init fuel hc hd hn hp hf]
    rfl
  · intro v rj
    constructor
    · simp [rowJs]
    · intro hnone
      simp [rowJs, extractStoryPointsJs, hnone, jsOrNumberCell]

/-- C4 amended witness: the row layout on a concrete one-issue run, and the
compiled variant's 9th and 10th entries at a concrete issue and reply. -/
theorem c4_row_layout_witness :
    (Importer.start (mkEnv "c" "d" "s" "o" "r" [[issA]] gEmpty []) 2).sheet.tail
      = ([[issA]].flatten.filter (fun v => !v.pull_request)).map (fun v =>
          [Cell.num v.number,
           Cell.str v.state,
           Cell.str "Issue",
           Cell.str v.title,
           Cell.str v.html_url,
           Cell.str (String.intercalate ", " (v.labels.map Label.name)),
           Cell.str (String.intercalate ", " (v.assignees.map Assignee.login)),
           optStrCell (v.milestone.map Milestone.title),
           Cell.str (extractStatus (gEmpty v.node_id)),
           extractStoryPoints (gEmpty v.node_id),
           optStrCell (v.milestone.map Milestone.due_on)])
    ∧ ∀ (v : Issue) (rj : GraphResponseJs),
        (rowJs v rj)[8]? = some (optStrCell (v.milestone.map Milestone.state))
        ∧ (storyPointsChainJs rj = none →
            (rowJs v rj)[9]? = some (Cell.str "N/A")) :=
  c4_row_layout "c" "d" "s" "o" "r" [[issA]] gEmpty [] 2
    (by decide) (by decide) (by decide) (by decide) (by decide)

/-- C5 counterexample: the header row that a run of the TypeScript variant
writes first is its "Issue Status"/"Task Status" header, which is not the
claimed 11-label list with the duplicate "Status". -/
theorem c5_counterexample :
    (Importer.start (mkEnv "c" "d" "s" "o" "r" [] gEmpty []) 1).sheet.head?
      = some headerTs
    ∧ headerTs ≠ [Cell.str "#", Cell.str "Status", Cell.str "Type",
        Cell.str "Title", Cell.str "URI", Cell.str "Labels",
        Cell.str "Assignees", Cell.str "Milestone", Cell.str "Status",
        Cell.str "Story Points", Cell.str "Deadline"] := by
  decide

/-- C5 amended: the header row is a fixed constant, identical across runs,
but its text differs between the two variants: the compiled variant's header
is exactly the claimed 11 labels with the duplicate "Status"; the TypeScript
variant writes "Issue Status" and "Task Status" in the two status columns. -/
theorem c5_header_row (cred doc name owner repo : String) (pages : List (List Issue))
    (g : String → GraphResponse) (init : Sheet) (fuel : Nat)
    (hc : cred ≠ "") (hd : doc ≠ "") (hn : name ≠ "")
    (hp : ∀ pg ∈ pages, pg ≠ []) (hf : pages.length + 1 ≤ fuel) :
    headerJs = [Cell.str "#", Cell.str "Status", Cell.str "Type",
        Cell.str "Title", Cell.str "URI", Cell.str "Labels",
        Cell.str "Assignees", Cell.str "Milestone", Cell.str "Status",
        Cell.str "Story Points", Cell.str "Deadline"]
    ∧ (Importer.start (mkEnv cred doc name owner repo pages g init) fuel).sheet.head?
      = some [Cell.str "#", Cell.str "Issue Status", Cell.str "Type",
          Cell.str "Title", Cell.str "URI", Cell.str "Labels",
          Cell.str "Assignees", Cell.str "Milestone", Cell.str "Task Status",
          Cell.str "Story Points", Cell.str "Deadline"] := by
  refine ⟨rfl, ?_⟩
  rw [start_spec cred doc name owner repo pages g init fuel hc hd hn hp hf]
  rfl

/-- C5 amended witness: both headers at a concrete run. -/
theorem c5_header_row_witness :
    headerJs = [Cell.str "#", Cell.str "Status", Cell.str "Type",
        Cell.str "Title", Cell.str "URI", Cell.str "Labels",
        Cell.str "Assignees", Cell.str "Milestone", Cell.str "Status",
        Cell.str "Story Points", Cell.str "Deadline"]
    ∧ (Importer.start (mkEnv "c" "d" "s" "o" "r" [] gEmpty []) 1).sheet.head?
      = some [Cell.str "#", Cell.str "Issue Status", Cell.str "Type",
          Cell.str "Title", Cell.str "URI", Cell.str "Labels",
          Cell.str "Assignees", Cell.str "Milestone", Cell.str "Task Status",
          Cell.str "Story Points", Cell.str "Deadline"] :=
  c5_header_row "c" "d" "s" "o" "r" [] gEmpty [] 1
    (by decide) (by decide) (by decide) (by decide) (by decide)
